import Mathlib

/-!
Verification of the minos example `examples/ga/custom_layer_activation.py`
and of the spec of its search-space and stopping-condition core.

The example file itself only configures and calls the core
(`minos.experiment.training`, `minos.model.parameter`, `minos.model.parameters`,
`minos.experiment.experiment`); the core's implementation files are not part of
the sources available here, so those components are modelled from the spec, as
indicated in each doc comment.  Components that do appear literally in the
example file (the custom activation, the environment passed by `search_model`,
the body of `load_best_model`) are embedded from that source.
-/

namespace Minos

/-! ## Stopping conditions -/

/-- Modelled from the spec: the configuration of
`AccuracyDecreaseStoppingCondition(min_epoch, max_epoch, noprogress_count)`
from `minos.experiment.training` (implementation not in the sources; §3/§4.3
of the spec).  The example constructs it with `min_epoch=2, max_epoch=10,
noprogress_count=5`. -/
structure AccuracyDecreaseStoppingCondition where
  min_epoch : Nat
  max_epoch : Nat
  noprogress_count : Nat
deriving Repr, DecidableEq

/-- Modelled from the spec: the per-run mutable state
`Running(epochs_elapsed, best_accuracy, stall_count)` of
`AccuracyDecreaseStoppingCondition` (§4.3).  `best_accuracy = none` means no
epoch accuracy has been reported yet in this run.  Accuracies are modelled as
rationals. -/
structure AccuracyDecreaseState where
  epochs_elapsed : Nat
  best_accuracy : Option ℚ
  stall_count : Nat
deriving Repr, DecidableEq

/-- Modelled from the spec: state at the start of a training run — reset,
nothing reported yet (§3: "Reset at the start of each training run"). -/
def AccuracyDecreaseState.initial : AccuracyDecreaseState :=
  { epochs_elapsed := 0, best_accuracy := none, stall_count := 0 }

/-- Modelled from the spec: whether a reported accuracy `a` improves on the
best accuracy seen so far; strictly-greater comparison, so a plateaued (equal)
accuracy counts as no-progress (§4.3 tie-break policy).  The first reported
accuracy always counts as an improvement. -/
def improvesOn (best : Option ℚ) (a : ℚ) : Bool :=
  match best with
  | none => true
  | some b => decide (b < a)

/-- Modelled from the spec: the per-epoch transition of
`AccuracyDecreaseStoppingCondition` on a reported epoch accuracy `a` (§4.3):
`epochs_elapsed += 1`; if `a > best_accuracy` then `best_accuracy = a;
stall_count = 0` else `stall_count += 1`. -/
def AccuracyDecreaseState.onEpochEnd (s : AccuracyDecreaseState) (a : ℚ) :
    AccuracyDecreaseState :=
  if improvesOn s.best_accuracy a then
    { epochs_elapsed := s.epochs_elapsed + 1, best_accuracy := some a, stall_count := 0 }
  else
    { epochs_elapsed := s.epochs_elapsed + 1, best_accuracy := s.best_accuracy,
      stall_count := s.stall_count + 1 }

/-- Modelled from the spec: the stop predicate of
`AccuracyDecreaseStoppingCondition` (§4.3): stop iff
`epochs_elapsed >= max_epoch` OR
(`epochs_elapsed >= min_epoch` AND `stall_count >= noprogress_count`). -/
def AccuracyDecreaseStoppingCondition.signalsStop
    (c : AccuracyDecreaseStoppingCondition) (s : AccuracyDecreaseState) : Bool :=
  decide (c.max_epoch ≤ s.epochs_elapsed) ||
    (decide (c.min_epoch ≤ s.epochs_elapsed) && decide (c.noprogress_count ≤ s.stall_count))

/-- State reached from the initial state after reporting the accuracies `as`,
one epoch each, in order. -/
def stateAfter (as : List ℚ) : AccuracyDecreaseState :=
  as.foldl AccuracyDecreaseState.onEpochEnd AccuracyDecreaseState.initial

/-- Whether the condition `c` signals stop right after the epoch reports `as`. -/
def stopsAfter (c : AccuracyDecreaseStoppingCondition) (as : List ℚ) : Bool :=
  c.signalsStop (stateAfter as)

/-- Modelled from the spec: the configuration of
`EpochStoppingCondition(epoch)` from `minos.experiment.training`
(implementation not in the sources; §3/§4.3 of the spec).  The example
constructs it with `epoch=10`. -/
structure EpochStoppingCondition where
  epoch : Nat
deriving Repr, DecidableEq

/-- Modelled from the spec: `EpochStopping` state machine `Running(count) →
Stopped when count == epoch` (§4.3); the count of completed epochs is the only
state, and the per-epoch transition ignores the reported accuracy. -/
def epochCountStep (count : Nat) (_a : ℚ) : Nat :=
  count + 1

/-- Modelled from the spec: the stop predicate of `EpochStoppingCondition`;
stops when `count == epoch` (§4.3), deterministic, no dependency on training
metrics. -/
def EpochStoppingCondition.signalsStop (c : EpochStoppingCondition) (count : Nat) : Bool :=
  decide (count = c.epoch)

/-- Modelled from the spec: `EpochStopping` "always accepts the final epoch's
result" (§3). -/
def EpochStoppingCondition.acceptsResult (_c : EpochStoppingCondition) : Bool :=
  true

/-- `accuracy_decrease_stopping_condition` from the example source
(lines 103–110): `AccuracyDecreaseStoppingCondition(min_epoch=2, max_epoch=10,
noprogress_count=5)`. -/
def accuracy_decrease_stopping_condition : AccuracyDecreaseStoppingCondition :=
  { min_epoch := 2, max_epoch := 10, noprogress_count := 5 }

/-- `epoch_stopping_condition` from the example source (lines 113–116):
`EpochStoppingCondition(epoch=10)`. -/
def epoch_stopping_condition : EpochStoppingCondition :=
  { epoch := 10 }

/-- The strictly increasing accuracy trace `[0.1, 0.2, ..., 1.0]` used by the
spec's testable property for `AccuracyDecreaseStopping`. -/
def increasingTrace : List ℚ :=
  [1/10, 2/10, 3/10, 4/10, 5/10, 6/10, 7/10, 8/10, 9/10, 1]

/-- The constant accuracy trace `[0.5, 0.5, 0.5, 0.5, 0.5, 0.5, 0.5]` used by
the spec's testable property for `AccuracyDecreaseStopping`. -/
def constantTrace : List ℚ :=
  [1/2, 1/2, 1/2, 1/2, 1/2, 1/2, 1/2]

/-! ## Parameter specifications -/

/-- Modelled from the spec: a sampled parameter value — an integer, a float
(modelled as a rational), or a categorical string (§4.1). -/
inductive SampleValue where
  | intValue (n : Int)
  | floatValue (q : ℚ)
  | stringValue (s : String)
deriving Repr, DecidableEq

/-- Modelled from the spec: `ParameterSpec` is a tagged union `Fixed(value)`,
`IntRange(min,max)`, `FloatRange(min,max)`, `Categorical(candidates)` (§3),
from `minos.model.parameter` (implementation not in the sources). -/
inductive ParameterSpec where
  | fixedValue (v : SampleValue)
  | intRange (lo hi : Int)
  | floatRange (lo hi : ℚ)
  | categorical (values : List String)
deriving Repr, DecidableEq

/-- Modelled from the spec: the randomness a caller supplies to `sample()`
("a random source supplied by the caller", §4.1): an unbounded natural draw
used for integer ranges and categorical choices, and a unit-interval rational
draw used for float ranges. -/
structure RandomSource where
  natDraw : Nat
  unitDraw : ℚ
deriving Repr, DecidableEq

/-- Modelled from the spec: `sample()` (§4.1) — `Fixed` returns the fixed
value; `IntRange(min,max)` returns a draw from the inclusive integer interval
`[min,max]`; `FloatRange(min,max)` maps the unit draw affinely onto
`[min,max]`; `Categorical` picks a member by index. -/
def ParameterSpec.sample (p : ParameterSpec) (r : RandomSource) : SampleValue :=
  match p with
  | .fixedValue v => v
  | .intRange lo hi => .intValue (lo + (r.natDraw : Int) % (hi - lo + 1))
  | .floatRange lo hi => .floatValue (lo + r.unitDraw * (hi - lo))
  | .categorical values => .stringValue (values.getD (r.natDraw % values.length) "")

/-- Modelled from the spec: a call `spec.sample()` returns a drawn value and
leaves the spec itself unchanged — sampling never mutates the spec (§4.1). -/
def ParameterSpec.sampleCall (p : ParameterSpec) (r : RandomSource) :
    SampleValue × ParameterSpec :=
  (p.sample r, p)

/-- Modelled from the spec: the error taxonomy of the core (§7). -/
inductive MinosError where
  | invalidRangeError
  | unknownActivationError
  | unknownComponentError
  | unknownParameterError
  | misconfiguredStoppingConditionError
deriving Repr, DecidableEq

/-- Modelled from the spec: `int_param(min, max)` from `minos.model.parameter`
builds an `IntRange` spec; construction fails eagerly with `InvalidRangeError`
when `min > max` (§4.1, §7). -/
def int_param (lo hi : Int) : Except MinosError ParameterSpec :=
  if hi < lo then .error .invalidRangeError else .ok (.intRange lo hi)

/-- Modelled from the spec: `float_param(min, max)` from
`minos.model.parameter` builds a `FloatRange` spec; construction fails eagerly
with `InvalidRangeError` when `min > max` (§4.1, §7). -/
def float_param (lo hi : ℚ) : Except MinosError ParameterSpec :=
  if hi < lo then .error .invalidRangeError else .ok (.floatRange lo hi)

/-- Modelled from the spec: `string_param(values)` from
`minos.model.parameter` builds a `Categorical` spec; construction fails
eagerly with `InvalidRangeError` on an empty candidate set (§4.1, §7). -/
def string_param (values : List String) : Except MinosError ParameterSpec :=
  if values.isEmpty then .error .invalidRangeError else .ok (.categorical values)

/-- Modelled from the spec: the validating constructor of
`AccuracyDecreaseStoppingCondition`; construction fails eagerly with
`MisconfiguredStoppingConditionError` when `min_epoch > max_epoch` or
`noprogress_count < 1` (§3, §4.3, §7). -/
def mkAccuracyDecreaseStoppingCondition (minEpoch maxEpoch noprogressCount : Nat) :
    Except MinosError AccuracyDecreaseStoppingCondition :=
  if maxEpoch < minEpoch || noprogressCount < 1 then
    .error .misconfiguredStoppingConditionError
  else
    .ok { min_epoch := minEpoch, max_epoch := maxEpoch, noprogress_count := noprogressCount }

/-! ## Layout and the custom component registry -/

/-- An opaque identifier standing for a Python callable (an activation
function or a layer class); the model only needs identity, not behavior. -/
def PyCallable := Nat
deriving instance Repr, DecidableEq for PyCallable

/-- Modelled from the spec: the process-wide custom component registry is a
mapping from name to implementation (§3); modelled as a lookup function. -/
def Registry (α : Type) := String → Option α

/-- Modelled from the spec: registering a component under a name — re-registering
an existing name overwrites it, last write wins, no collision error (§4.6). -/
def registerComponent {α : Type} (reg : Registry α) (name : String) (impl : α) :
    Registry α :=
  fun n => if n = name then some impl else reg n

/-- Modelled from the spec: looking a name up at model-build time fails with
`UnknownComponentError` if the name is absent (§4.6). -/
def lookupComponent {α : Type} (reg : Registry α) (name : String) : Except MinosError α :=
  match reg name with
  | some impl => .ok impl
  | none => .error .unknownComponentError

/-- Modelled from the spec: `register_custom_activation(name, fn)` from
`minos.model.parameters` adds a process-wide activation entry (§4.6). -/
def register_custom_activation (reg : Registry PyCallable) (name : String)
    (fn : PyCallable) : Registry PyCallable :=
  registerComponent reg name fn

/-- Modelled from the spec: a registered custom layer entry — the layer class
and the declared `ParameterSpec`s for its constructor arguments (§3). -/
structure CustomLayerDefinition where
  impl : PyCallable
  params : List (String × ParameterSpec)

/-- Modelled from the spec: `register_custom_layer(name, impl, params)` from
`minos.model.parameters` adds a process-wide layer entry (§4.6). -/
def register_custom_layer (reg : Registry CustomLayerDefinition) (name : String)
    (impl : PyCallable) (params : List (String × ParameterSpec)) :
    Registry CustomLayerDefinition :=
  registerComponent reg name ⟨impl, params⟩

/-- `Layout` attributes as used by `build_layout` in the example source
(lines 28–35): `input_size`, `output_size`, `output_activation`. -/
structure Layout where
  input_size : Nat
  output_size : Nat
  output_activation : String
deriving Repr, DecidableEq

/-- Modelled from the spec: the built-in activation names a `Layout` may
reference besides registered custom ones; the example uses `softmax`. -/
def builtinActivations : List String :=
  ["softmax", "sigmoid", "relu", "tanh", "linear"]

/-- Modelled from the spec: the validating construction of `Layout` —
construction fails eagerly with `UnknownActivationError` when
`output_activation` is resolvable neither among built-ins nor in the custom
activation registry (§4.2, §7). -/
def mkLayout (inputSize outputSize : Nat) (activation : String)
    (reg : Registry PyCallable) : Except MinosError Layout :=
  if builtinActivations.contains activation || (reg activation).isSome then
    .ok { input_size := inputSize, output_size := outputSize, output_activation := activation }
  else
    .error .unknownActivationError

/-! ## Experiment parameters -/

/-- Result of resolving a parameter path in an `ExperimentParameters` space. -/
inductive ParameterResolution where
  | ok (spec : ParameterSpec)
  | unknownParameterError
deriving Repr, DecidableEq

/-- Modelled from the spec: `ExperimentParameters(use_default_values)` from
`minos.experiment.experiment` — the flag chosen at construction plus the
explicitly registered per-path overrides, most recent first (§4.5). -/
structure ExperimentParameters where
  use_default_values : Bool
  overrides : List (String × ParameterSpec)

/-- Modelled from the spec: `layout_parameter(name, spec)` registers or
overrides a layout-level entry — last write wins, no merge (§4.5). -/
def ExperimentParameters.layout_parameter (ep : ExperimentParameters)
    (name : String) (spec : ParameterSpec) : ExperimentParameters :=
  { ep with overrides := (name, spec) :: ep.overrides }

/-- Modelled from the spec: `layer_parameter("LayerType.attr", spec)`
registers or overrides a per-layer-type entry — last write wins, no merge
(§4.5). -/
def ExperimentParameters.layer_parameter (ep : ExperimentParameters)
    (path : String) (spec : ParameterSpec) : ExperimentParameters :=
  { ep with overrides := (path, spec) :: ep.overrides }

/-- Modelled from the spec: `parameter_for(path)` resolves a path to its spec:
an explicit override wins; otherwise, when the space was constructed with
`use_default_values=True`, the framework-declared default for the path is
returned; otherwise resolution fails with `UnknownParameterError` (§4.5).
The framework's default table (declared in `minos.model.parameters`, not in
the sources) is passed in as `defaults`. -/
def ExperimentParameters.parameter_for (ep : ExperimentParameters)
    (defaults : String → Option ParameterSpec) (path : String) : ParameterResolution :=
  match ep.overrides.lookup path with
  | some spec => .ok spec
  | none =>
      if ep.use_default_values then
        match defaults path with
        | some d => .ok d
        | none => .unknownParameterError
      else .unknownParameterError

/-- `custom_experiment_parameters` from the example source (lines 79–100):
`ExperimentParameters(use_default_values=True)` followed by the six explicit
layout/layer parameter registrations.  The `ParameterSpec` arguments are the
payloads of the (validated) `int_param` / `string_param` / `float_param`
calls in the source. -/
def custom_experiment_parameters : ExperimentParameters :=
  ((((((({ use_default_values := true, overrides := [] } : ExperimentParameters)
    |>.layout_parameter "rows" (.fixedValue (.intValue 1)))
    |>.layout_parameter "blocks" (.intRange 1 2))
    |>.layout_parameter "layers" (.intRange 1 3))
    |>.layer_parameter "Dense.output_dim" (.intRange 10 100))
    |>.layer_parameter "Dense.activation" (.categorical ["relu", "custom_activation_1"]))
    |>.layer_parameter "Dropout.p" (.floatRange (1/10) (9/10)))

/-! ## Embeddings from the example source file itself -/

/-- `CpuEnvironment(n_jobs)` from `minos.train.utils` as configuration data:
the number of parallel training processes it declares. -/
structure CpuEnvironment where
  n_jobs : Nat
deriving Repr, DecidableEq

/-- The execution environment `search_model` passes to the `Experiment` in the
example source, line 142: `CpuEnvironment(n_jobs=1)`. -/
def search_model_environment : CpuEnvironment :=
  { n_jobs := 1 }

/-- The global names the module `examples/ga/custom_layer_activation.py`
binds: its imports (lines 7–21) and its module-level definitions. -/
def moduleGlobalNames : List String :=
  ["backend", "activations", "Layer", "get_reuters_dataset", "Experiment",
   "ExperimentParameters", "run_ga_search_experiment", "Training",
   "AccuracyDecreaseStoppingCondition", "EpochStoppingCondition",
   "ModelBuilder", "Objective", "Optimizer", "Metric", "Layout",
   "int_param", "string_param", "float_param", "register_custom_activation",
   "register_custom_layer", "CpuEnvironment", "cpu_device", "Environment",
   "np", "max_words", "build_layout", "custom_activation", "CustomLayer",
   "register_custom_definitions", "custom_experiment_parameters",
   "accuracy_decrease_stopping_condition", "epoch_stopping_condition",
   "search_model", "load_best_model", "main"]

/-- Outcome of running `load_best_model`: either a model built by
`ModelBuilder().build`, or a Python `NameError` naming the unresolved
identifier. -/
inductive LoadBestModelResult where
  | builtModel
  | nameError (missing : String)
deriving Repr, DecidableEq

/-- `load_best_model(experiment_label, step)` from the example source
(lines 152–163): its body first evaluates the name
`load_experiment_best_blueprint`; Python resolves a bare name against the
module's global bindings, so if the name is unbound the call raises
`NameError` there, and `ModelBuilder().build` on line 160 is never reached. -/
def load_best_model (_experiment_label : String) (_step : Nat) : LoadBestModelResult :=
  if moduleGlobalNames.contains "load_experiment_best_blueprint" then
    .builtModel
  else
    .nameError "load_experiment_best_blueprint"

/-- `custom_activation(x) = 1 + backend.tanh(x)` from the example source
(lines 38–39), over the reals. -/
noncomputable def custom_activation (x : ℝ) : ℝ :=
  1 + Real.tanh x

/-! ## Helper lemmas -/

/-- Counting completed epochs: folding `epochCountStep` over the reports adds
the number of reports to the running count. -/
theorem foldl_epochCountStep (as : List ℚ) (n : Nat) :
    as.foldl epochCountStep n = n + as.length := by
  induction as generalizing n with
  | nil => simp
  | cons a as ih => simp [epochCountStep, ih]; omega

/-- The hyperbolic tangent stays below `1`. -/
theorem tanh_lt_one (x : ℝ) : Real.tanh x < 1 := by
  rw [Real.tanh_eq_sinh_div_cosh]
  exact (div_lt_one (Real.cosh_pos x)).mpr (Real.sinh_lt_cosh x)

/-- The hyperbolic tangent stays above `-1`. -/
theorem neg_one_lt_tanh (x : ℝ) : -1 < Real.tanh x := by
  have h := tanh_lt_one (-x)
  rw [Real.tanh_neg] at h
  linarith

/-! ## Claim theorems -/

/-- C1. For every `AccuracyDecreaseStoppingCondition` and every state of a
run, the epoch transition increments `epochs_elapsed`; it sets
`best_accuracy` to the new accuracy and resets `stall_count` to `0` exactly
when the new accuracy is strictly greater than the best so far, and otherwise
(including an accuracy equal to the best, which counts as no-progress)
increments `stall_count` and keeps `best_accuracy`; and the condition signals
stop iff `epochs_elapsed >= max_epoch` or (`epochs_elapsed >= min_epoch` and
`stall_count >= noprogress_count`). -/
theorem accuracy_decrease_step_and_stop
    (c : AccuracyDecreaseStoppingCondition) (s : AccuracyDecreaseState) (a : ℚ) :
    (s.onEpochEnd a).epochs_elapsed = s.epochs_elapsed + 1
    ∧ (∀ b : ℚ, s.best_accuracy = some b →
        (b < a →
          (s.onEpochEnd a).best_accuracy = some a ∧ (s.onEpochEnd a).stall_count = 0)
        ∧ (¬ b < a →
          (s.onEpochEnd a).best_accuracy = some b
            ∧ (s.onEpochEnd a).stall_count = s.stall_count + 1))
    ∧ (s.best_accuracy = some a → (s.onEpochEnd a).stall_count = s.stall_count + 1)
    ∧ (c.signalsStop s = true ↔
        c.max_epoch ≤ s.epochs_elapsed
          ∨ (c.min_epoch ≤ s.epochs_elapsed ∧ c.noprogress_count ≤ s.stall_count)) := by
  refine ⟨?_, ?_, ?_, ?_⟩
  · unfold AccuracyDecreaseState.onEpochEnd
    split <;> rfl
  · intro b hb
    constructor
    · intro hlt
      simp [AccuracyDecreaseState.onEpochEnd, improvesOn, hb, hlt]
    · intro hnlt
      simp [AccuracyDecreaseState.onEpochEnd, improvesOn, hb, hnlt]
  · intro hb
    simp [AccuracyDecreaseState.onEpochEnd, improvesOn, hb]
  · simp [AccuracyDecreaseStoppingCondition.signalsStop]

/-- Witness for C1 at the concrete state `(3, some 0.5, 2)` and reported
accuracy `0.5`: the plateaued accuracy counts as no-progress. -/
theorem accuracy_decrease_step_and_stop_witness :
    (AccuracyDecreaseState.onEpochEnd ⟨3, some (1/2 : ℚ), 2⟩ (1/2)).best_accuracy
        = some (1/2 : ℚ)
    ∧ (AccuracyDecreaseState.onEpochEnd ⟨3, some (1/2 : ℚ), 2⟩ (1/2)).stall_count = 3 :=
  ((accuracy_decrease_step_and_stop accuracy_decrease_stopping_condition
      ⟨3, some (1/2 : ℚ), 2⟩ (1/2)).2.1 (1/2) rfl).2 (lt_irrefl _)

/-- C2 counterexample. With `min_epoch=2, max_epoch=10,
noprogress_count=5`, the constant trace `[0.5 × 7]` already signals stop after
6 epochs, so the claim that it signals stop at epoch 7 "and not at any earlier
epoch" is false. -/
theorem constant_trace_stops_at_epoch_six :
    stopsAfter accuracy_decrease_stopping_condition (constantTrace.take 6) = true := by
  norm_num [stopsAfter, stateAfter, AccuracyDecreaseState.onEpochEnd, improvesOn,
    AccuracyDecreaseState.initial, AccuracyDecreaseStoppingCondition.signalsStop,
    accuracy_decrease_stopping_condition, constantTrace]

/-- C2 (amended). With `min_epoch=2, max_epoch=10, noprogress_count=5`:
the strictly increasing trace `[0.1, ..., 1.0]` never signals stop after any
proper prefix of fewer than 10 epochs and signals stop after epoch 10 (via
`max_epoch`); the constant trace `[0.5 × 7]` first signals stop after epoch 6
(1 improving epoch + 5 stalls), not epoch 7, and at no earlier epoch. -/
theorem example_condition_trace_behaviour :
    ((List.range 10).all
        (fun k => !(stopsAfter accuracy_decrease_stopping_condition (increasingTrace.take k))))
      = true
    ∧ stopsAfter accuracy_decrease_stopping_condition increasingTrace = true
    ∧ ((List.range 6).all
        (fun k => !(stopsAfter accuracy_decrease_stopping_condition (constantTrace.take k))))
      = true
    ∧ stopsAfter accuracy_decrease_stopping_condition (constantTrace.take 6) = true := by
  refine ⟨?_, ?_, ?_, ?_⟩ <;>
    norm_num [List.range_succ, stopsAfter, stateAfter, AccuracyDecreaseState.onEpochEnd,
      improvesOn, AccuracyDecreaseState.initial, AccuracyDecreaseStoppingCondition.signalsStop,
      accuracy_decrease_stopping_condition, increasingTrace, constantTrace]

/-- C3. For every `EpochStoppingCondition(epoch=N)` with `N > 0` and every
sequence of epoch reports (whatever the reported accuracies): the condition
never signals stop while fewer than `N` epochs have completed, signals stop
exactly when the `N`-th epoch completes, and always accepts the final epoch's
result. -/
theorem epoch_stopping_exact (c : EpochStoppingCondition) (_hN : 0 < c.epoch)
    (as : List ℚ) :
    (as.length < c.epoch → c.signalsStop (as.foldl epochCountStep 0) = false)
    ∧ (as.length = c.epoch → c.signalsStop (as.foldl epochCountStep 0) = true)
    ∧ c.acceptsResult = true := by
  refine ⟨?_, ?_, rfl⟩
  · intro hlt
    simp [EpochStoppingCondition.signalsStop, foldl_epochCountStep]
    omega
  · intro heq
    simp [EpochStoppingCondition.signalsStop, foldl_epochCountStep, heq]

/-- Witness for C3 with the example's `EpochStoppingCondition(epoch=10)` and a
3-epoch report sequence: no stop is signalled yet. -/
theorem epoch_stopping_exact_witness :
    epoch_stopping_condition.signalsStop
        (([1/2, 1/2, 1/2] : List ℚ).foldl epochCountStep 0) = false :=
  (epoch_stopping_exact epoch_stopping_condition (by decide)
      ([1/2, 1/2, 1/2] : List ℚ)).1 (by decide)

/-- C4. For well-formed ranges (`min ≤ max`) and any caller-supplied
randomness whose unit draw lies in `[0,1]`: sampling an `IntRange` always
yields an integer in the inclusive interval `[min, max]` and, when
`min = max`, exactly that value; sampling a `FloatRange` always yields a value
in `[min, max]` and, when `min = max`, exactly that value; and a sampling call
returns the spec unchanged — it never mutates the spec. -/
theorem parameter_range_sampling (lo hi : Int) (qlo qhi : ℚ) (r : RandomSource)
    (hint : lo ≤ hi) (hq : qlo ≤ qhi) (ht0 : 0 ≤ r.unitDraw) (ht1 : r.unitDraw ≤ 1) :
    (∃ n : Int, (ParameterSpec.intRange lo hi).sample r = .intValue n
        ∧ lo ≤ n ∧ n ≤ hi)
    ∧ (lo = hi → (ParameterSpec.intRange lo hi).sample r = .intValue lo)
    ∧ (∃ q : ℚ, (ParameterSpec.floatRange qlo qhi).sample r = .floatValue q
        ∧ qlo ≤ q ∧ q ≤ qhi)
    ∧ (qlo = qhi → (ParameterSpec.floatRange qlo qhi).sample r = .floatValue qlo)
    ∧ ((ParameterSpec.intRange lo hi).sampleCall r).2 = ParameterSpec.intRange lo hi
    ∧ ((ParameterSpec.floatRange qlo qhi).sampleCall r).2 = ParameterSpec.floatRange qlo qhi := by
  have hm : (0 : Int) < hi - lo + 1 := by omega
  have h1 : 0 ≤ (r.natDraw : Int) % (hi - lo + 1) := Int.emod_nonneg _ (by omega)
  have h2 : (r.natDraw : Int) % (hi - lo + 1) < hi - lo + 1 := Int.emod_lt_of_pos _ hm
  have h3 : 0 ≤ r.unitDraw * (qhi - qlo) := mul_nonneg ht0 (by linarith)
  have h4 : r.unitDraw * (qhi - qlo) ≤ qhi - qlo :=
    mul_le_of_le_one_left (by linarith) ht1
  refine ⟨⟨_, rfl, by omega, by omega⟩, ?_, ⟨_, rfl, by linarith, by linarith⟩, ?_, rfl, rfl⟩
  · intro h
    subst h
    simp [ParameterSpec.sample]
  · intro h
    subst h
    simp [ParameterSpec.sample]

/-- Witness for C4 with the example's `int_param(10, 100)` and
`float_param(0.1, 0.9)` ranges, the degenerate range `[5, 5]` and the concrete
random source `(7, 1/3)`. -/
theorem parameter_range_sampling_witness :
    (ParameterSpec.intRange 5 5).sample ⟨7, 1/3⟩ = .intValue 5
    ∧ ((ParameterSpec.floatRange (1/10) (9/10)).sampleCall ⟨7, 1/3⟩).2
        = ParameterSpec.floatRange (1/10) (9/10) :=
  ⟨(parameter_range_sampling 5 5 (1/10) (9/10) ⟨7, 1/3⟩ (by decide)
      (by norm_num) (by show (0:ℚ) ≤ 1/3; norm_num) (by show (1:ℚ)/3 ≤ 1; norm_num)).2.1 rfl,
   (parameter_range_sampling 10 100 (1/10) (9/10) ⟨7, 1/3⟩ (by decide)
      (by norm_num) (by show (0:ℚ) ≤ 1/3; norm_num) (by show (1:ℚ)/3 ≤ 1; norm_num)).2.2.2.2.2⟩

/-- C5. For a parameter path with no explicit override and a
framework-declared default: on a space constructed with
`use_default_values=True`, `parameter_for` resolves the path to that non-error
default spec; on a space constructed with `use_default_values=False`, the same
lookup fails with `UnknownParameterError`. -/
theorem parameter_for_default_semantics (ov : List (String × ParameterSpec))
    (defaults : String → Option ParameterSpec) (path : String) (d : ParameterSpec)
    (hnov : ov.lookup path = none) (hd : defaults path = some d) :
    ExperimentParameters.parameter_for ⟨true, ov⟩ defaults path = .ok d
    ∧ ExperimentParameters.parameter_for ⟨false, ov⟩ defaults path
        = .unknownParameterError := by
  constructor <;> simp [ExperimentParameters.parameter_for, hnov, hd]

/-- Witness for C5 with the example's `custom_experiment_parameters` override
table and the unregistered layer-parameter path `"Conv2D.filters"`. -/
theorem parameter_for_default_semantics_witness :
    ExperimentParameters.parameter_for
        ⟨true, custom_experiment_parameters.overrides⟩
        (fun _ => some (.intRange 1 8)) "Conv2D.filters" = .ok (.intRange 1 8)
    ∧ ExperimentParameters.parameter_for
        ⟨false, custom_experiment_parameters.overrides⟩
        (fun _ => some (.intRange 1 8)) "Conv2D.filters" = .unknownParameterError :=
  parameter_for_default_semantics custom_experiment_parameters.overrides
    (fun _ => some (.intRange 1 8)) "Conv2D.filters" (.intRange 1 8) (by rfl) rfl

/-- C6. In the custom component registry, registering an already-registered
name (activation or layer) overwrites the previous entry — registration is a
total operation, no error is possible — so after two registrations under the
same name only the second implementation is resolvable; and looking up a name
that was never registered fails with `UnknownComponentError`. -/
theorem registry_last_write_wins (areg : Registry PyCallable)
    (lreg : Registry CustomLayerDefinition) (name : String) (f1 f2 : PyCallable)
    (impl1 impl2 : PyCallable) (ps1 ps2 : List (String × ParameterSpec))
    (missingA missingL : String)
    (ha : areg missingA = none) (hl : lreg missingL = none) :
    lookupComponent
        (register_custom_activation (register_custom_activation areg name f1) name f2)
        name = .ok f2
    ∧ lookupComponent
        (register_custom_layer (register_custom_layer lreg name impl1 ps1) name impl2 ps2)
        name = .ok (⟨impl2, ps2⟩ : CustomLayerDefinition)
    ∧ lookupComponent areg missingA = .error .unknownComponentError
    ∧ lookupComponent lreg missingL = .error .unknownComponentError := by
  refine ⟨?_, ?_, ?_, ?_⟩ <;>
    simp [lookupComponent, register_custom_activation, register_custom_layer,
      registerComponent, ha, hl]

/-- Witness for C6: registering `custom_activation_1` twice on an empty
registry leaves the second implementation; looking `custom_layer_1` up in the
empty registry fails with `UnknownComponentError`. -/
theorem registry_last_write_wins_witness :
    lookupComponent
        (register_custom_activation
          (register_custom_activation (fun _ => none) "custom_activation_1" (0 : Nat))
          "custom_activation_1" (1 : Nat))
        "custom_activation_1" = .ok (1 : Nat)
    ∧ lookupComponent (fun _ => (none : Option PyCallable)) "custom_layer_1"
        = .error .unknownComponentError :=
  ⟨(registry_last_write_wins (fun _ => none) (fun _ => none) "custom_activation_1"
      (0 : Nat) (1 : Nat) (0 : Nat) (0 : Nat) [] [] "x" "x" rfl rfl).1,
   (registry_last_write_wins (fun _ => none) (fun _ => none) "custom_activation_1"
      (0 : Nat) (1 : Nat) (0 : Nat) (0 : Nat) [] [] "custom_layer_1" "x" rfl rfl).2.2.1⟩

/-- C7. Every validation error of the core is raised eagerly at
construction time of the offending object: `int_param` / `float_param` fail
with `InvalidRangeError` exactly when `min > max` and `string_param` exactly
on an empty candidate set; `mkAccuracyDecreaseStoppingCondition` fails with
`MisconfiguredStoppingConditionError` exactly when `min_epoch > max_epoch` or
`noprogress_count < 1`; `mkLayout` fails with `UnknownActivationError` exactly
when the output activation resolves neither to a built-in nor to a registered
custom activation; and in each case a well-formed construction returns the
object without error.  (Sampling is total in the model — `sample` returns a
plain value — so no validation can be deferred to a later `sample()` call or
to training time.) -/
theorem eager_construction_validation (lo hi : Int) (qlo qhi : ℚ)
    (values : List String) (minEpoch maxEpoch noprogressCount : Nat)
    (inputSize outputSize : Nat) (activation : String) (reg : Registry PyCallable) :
    (int_param lo hi = .error .invalidRangeError ↔ hi < lo)
    ∧ (lo ≤ hi → int_param lo hi = .ok (.intRange lo hi))
    ∧ (float_param qlo qhi = .error .invalidRangeError ↔ qhi < qlo)
    ∧ (qlo ≤ qhi → float_param qlo qhi = .ok (.floatRange qlo qhi))
    ∧ (string_param values = .error .invalidRangeError ↔ values = [])
    ∧ (values ≠ [] → string_param values = .ok (.categorical values))
    ∧ (mkAccuracyDecreaseStoppingCondition minEpoch maxEpoch noprogressCount
          = .error .misconfiguredStoppingConditionError
        ↔ (maxEpoch < minEpoch ∨ noprogressCount < 1))
    ∧ (minEpoch ≤ maxEpoch → 1 ≤ noprogressCount →
        mkAccuracyDecreaseStoppingCondition minEpoch maxEpoch noprogressCount
          = .ok ⟨minEpoch, maxEpoch, noprogressCount⟩)
    ∧ (mkLayout inputSize outputSize activation reg = .error .unknownActivationError
        ↔ (builtinActivations.contains activation = false ∧ reg activation = none))
    ∧ (builtinActivations.contains activation = true →
        mkLayout inputSize outputSize activation reg
          = .ok ⟨inputSize, outputSize, activation⟩) := by
  refine ⟨?_, ?_, ?_, ?_, ?_, ?_, ?_, ?_, ?_, ?_⟩
  · unfold int_param
    split <;> rename_i h <;> simp [h]
  · intro h
    simp [int_param, not_lt.mpr h]
  · unfold float_param
    split <;> rename_i h <;> simp [h]
  · intro h
    simp [float_param, not_lt.mpr h]
  · unfold string_param
    split <;> rename_i h <;> simp_all [List.isEmpty_iff]
  · intro h
    simp [string_param, List.isEmpty_iff, h]
  · unfold mkAccuracyDecreaseStoppingCondition
    split <;> rename_i h <;> simp_all
  · intro h1 h2
    unfold mkAccuracyDecreaseStoppingCondition
    split <;> rename_i h
    · simp at h
      omega
    · rfl
  · rcases Bool.eq_false_or_eq_true (builtinActivations.contains activation) with hb | hb <;>
      cases hra : reg activation <;> simp [mkLayout, hb, hra]
  · intro h
    unfold mkLayout
    rw [h]
    simp

/-- Witness for C7 with the example's concrete constructions:
`int_param(10, 100)` succeeds, a reversed range fails with
`InvalidRangeError`, the example's stopping condition
`(min_epoch=2, max_epoch=10, noprogress_count=5)` succeeds, and a
`noprogress_count=0` misconfiguration fails eagerly. -/
theorem eager_construction_validation_witness :
    int_param 10 100 = .ok (.intRange 10 100)
    ∧ int_param 100 10 = .error .invalidRangeError
    ∧ mkAccuracyDecreaseStoppingCondition 2 10 5
        = .ok accuracy_decrease_stopping_condition
    ∧ mkAccuracyDecreaseStoppingCondition 2 10 0
        = .error .misconfiguredStoppingConditionError :=
  ⟨(eager_construction_validation 10 100 (1/10) (9/10) ["relu"] 2 10 5 1000 46
      "softmax" (fun _ => none)).2.1 (by decide),
   (eager_construction_validation 100 10 (1/10) (9/10) ["relu"] 2 10 5 1000 46
      "softmax" (fun _ => none)).1.mpr (by decide),
   (eager_construction_validation 10 100 (1/10) (9/10) ["relu"] 2 10 5 1000 46
      "softmax" (fun _ => none)).2.2.2.2.2.2.2.1 (by decide) (by decide),
   (eager_construction_validation 10 100 (1/10) (9/10) ["relu"] 2 10 0 1000 46
      "softmax" (fun _ => none)).2.2.2.2.2.2.1.mpr (Or.inr (by decide))⟩

/-- C8 (code bug). `search_model` passes `CpuEnvironment(n_jobs=1)` to the
`Experiment` (source line 142), although its own docstring (line 123) says the
experiment runs "on the cpu, with 2 parralel processes": the environment the
code declares allows only 1 parallel training process, not 2. -/
theorem search_model_environment_n_jobs :
    search_model_environment.n_jobs = 1 ∧ search_model_environment.n_jobs ≠ 2 := by
  constructor <;> simp [search_model_environment]

/-- C9. For any arguments, `load_best_model` fails with a Python
`NameError` on the unbound name `load_experiment_best_blueprint` — the name is
neither imported nor defined among the module's global bindings — and
`ModelBuilder().build` is therefore never reached. -/
theorem load_best_model_raises_name_error (label : String) (step : Nat) :
    moduleGlobalNames.contains "load_experiment_best_blueprint" = false
    ∧ load_best_model label step = .nameError "load_experiment_best_blueprint"
    ∧ load_best_model label step ≠ .builtModel := by
  have hc : moduleGlobalNames.contains "load_experiment_best_blueprint" = false := by
    decide
  refine ⟨hc, ?_, ?_⟩ <;>
    · unfold load_best_model
      rw [hc]
      simp

/-- C10. `custom_activation(x)` equals `1 + tanh(x)` for every real input
`x`, and its value always lies strictly between `0` and `2`. -/
theorem custom_activation_eq_and_bounds (x : ℝ) :
    custom_activation x = 1 + Real.tanh x
    ∧ 0 < custom_activation x ∧ custom_activation x < 2 := by
  refine ⟨rfl, ?_, ?_⟩
  · have h := neg_one_lt_tanh x
    unfold custom_activation
    linarith
  · have h := tanh_lt_one x
    unfold custom_activation
    linarith

end Minos

